import Mathlib

/-!
Verification development for the dawproject data-access layer
(`src/05-implementation`).  The definitions below are a shallow embedding of
the C++ sources: pure functions become Lean functions, the stateful
reader/writer sessions become explicit state records with transition
functions, C++ `double` is modelled as `Rat` (every comparison the code
performs is against exact decimal constants), `std::string` as `String`
(the data exercised is ASCII, where `String.length` coincides with
`std::string::size()`), and `std::filesystem::path` as a list of components
with an absolute-path flag.  Filesystem-dependent behaviour
(`std::filesystem::exists`, readability probes) is abstracted into an
explicit `FileSystem` record of query functions, and
`std::filesystem::weakly_canonical` is modelled over a symlink-free
filesystem with a given canonical absolute working directory.
-/

/-- Prefix test on character lists: `listPre n h` is true when `n` is an
initial segment of `h`.  Helper for the substring search below. -/
def listPre : List Char → List Char → Bool
  | [], _ => true
  | _ :: _, [] => false
  | a :: as, b :: bs => a == b && listPre as bs

/-- Substring search on character lists, mirroring `std::string::find`
returning whether the needle occurs anywhere. -/
def listSub (needle : List Char) : List Char → Bool
  | [] => decide (needle = [])
  | c :: rest => listPre needle (c :: rest) || listSub needle rest

/-- Models `hay.find(needle) != std::string::npos`. -/
def strContains (hay needle : String) : Bool :=
  listSub needle.data hay.data

/-- Pads a digit string on the left with zeros up to width `w`. -/
def leftPadZeros (w : Nat) (s : String) : String :=
  String.mk (List.replicate (w - s.length) '0') ++ s

/-- Models `std::to_string(double)`: `printf` `%f` formatting with six
digits after the decimal point, for the nonnegative values that occur in
this code base (ties round upward). -/
def cppToStringDouble (q : Rat) : String :=
  let scaled : Nat := (q.num.toNat * 1000000 * 2 + q.den) / (q.den * 2)
  let ip := scaled / 1000000
  let fp := scaled % 1000000
  toString ip ++ "." ++ leftPadZeros 6 (toString fp)

/-- Models `std::ostream << double` (default six significant digits) for
the integral sub-million values that occur in this code base. -/
def streamDouble (q : Rat) : String :=
  if q.den = 1 then toString q.num else cppToStringDouble q

/-- Model of `std::filesystem::path`: an absolute-path flag plus the list
of path components. -/
structure FsPath where
  absolute : Bool
  components : List String
deriving DecidableEq, Inhabited

/-- Models `path.empty()`: the underlying native string is empty. -/
def FsPath.pathEmpty (p : FsPath) : Bool :=
  !p.absolute && p.components.isEmpty

/-- Models `path.string()`: the native rendering with `/` separators. -/
def FsPath.render (p : FsPath) : String :=
  (if p.absolute then "/" else "") ++ String.intercalate "/" p.components

/-- Models `path.parent_path()`: drops the trailing filename component. -/
def FsPath.parent (p : FsPath) : FsPath :=
  ⟨p.absolute, p.components.dropLast⟩

/-- Index of the last `.` in a filename's character list, if any. -/
def lastDotIdx (cs : List Char) : Option Nat :=
  match List.findIdx? (fun c => c == '.') cs.reverse with
  | none => none
  | some r => some (cs.length - 1 - r)

/-- Models `std::filesystem::path::extension()` on a filename: the suffix
from the final dot, except that `.`, `..` and a leading-dot filename have
no extension. -/
def fileExtension (f : String) : String :=
  if f = "." ∨ f = ".." then ""
  else
    match lastDotIdx f.data with
    | none => ""
    | some 0 => ""
    | some i => String.mk (f.data.drop i)

/-- Models `path.extension()`: the extension of the last component. -/
def FsPath.extension (p : FsPath) : String :=
  match p.components.getLast? with
  | none => ""
  | some f => fileExtension f

/-- Lexical normalization of an absolute component list: `.` is dropped
and `..` removes the preceding component (at the root it is dropped, as
`/..` is `/`). -/
def normalizeComponents (cs : List String) : List String :=
  cs.foldl (fun acc c =>
    if c = "." then acc
    else if c = ".." then acc.dropLast
    else acc ++ [c]) []

/-- Models `std::filesystem::weakly_canonical` over a symlink-free
filesystem whose current working directory is the canonical absolute
path with components `cwd`: the path is made absolute against `cwd` and
normalized (the result of `weakly_canonical` is in normal form). -/
def weaklyCanonical (cwd : List String) (p : FsPath) : FsPath :=
  let comps := if p.absolute then p.components else cwd ++ p.components
  ⟨true, normalizeComponents comps⟩

/-- Model of `dawproject::data::TrackType`. -/
inductive TrackType where
  | Audio
  | Instrument
  | Group
  | Return
deriving DecidableEq, Inhabited

/-- Model of `dawproject::data::ProjectInfo` (`data_access_engine.h`).
`tempo` is a C++ `double`, modelled as `Rat`; the two `time_point`
members are modelled as tick counts. -/
structure ProjectInfo where
  title : String
  artist : String
  album : String
  genre : String
  tempo : Rat
  timeSignature : String
  key : String
  created : Nat
  modified : Nat
deriving DecidableEq, Inhabited

/-- Model of `dawproject::data::TrackInfo`. -/
structure TrackInfo where
  id : String
  name : String
  type : TrackType
  color : String
  volume : Rat
  pan : Rat
  muted : Bool
  soloed : Bool
  orderIndex : Int
  instrumentId : Option String
  audioFile : Option String
deriving DecidableEq, Inhabited

/-- Model of `dawproject::data::ClipInfo`. -/
structure ClipInfo where
  id : String
  name : String
  trackId : String
  startTime : Rat
  duration : Rat
  playbackRate : Rat
  fadeInTime : Rat
  fadeOutTime : Rat
  contentId : Option String
  audioFile : Option String
deriving DecidableEq, Inhabited

/-- Model of `dawproject::data::ValidationResult`. -/
structure ValidationResult where
  isValid : Bool
  errors : List String
  warnings : List String
  context : String
deriving DecidableEq, Inhabited

/-- Model of `dawproject::data::Result<T>`: success flag, payload value
(default-constructed on failure), error message and numeric error code. -/
structure Result (T : Type) where
  success : Bool
  value : T
  errorMessage : String
  errorCode : Int
deriving DecidableEq, Inhabited

/-- Models `Result<T>::makeSuccess(v)`. -/
def Result.makeSuccess {T : Type} (v : T) : Result T :=
  ⟨true, v, "", 0⟩

/-- Models `Result<T>::makeError(message, code)`; the C++ default for
`code` is `-1`, passed explicitly at every call site here. -/
def Result.makeError {T : Type} [Inhabited T] (message : String) (code : Int) : Result T :=
  ⟨false, default, message, code⟩

/-- Models `ProjectInfo::isValid` (`data_access_engine_impl.cpp`):
`!title.empty() && tempo > 0.0`. -/
def ProjectInfo.isValid (p : ProjectInfo) : Bool :=
  !(decide (p.title = "")) && decide (0 < p.tempo)

/-- Models `ProjectInfo::getValidationErrors`: pushes one message per
failed field check, in source order. -/
def ProjectInfo.getValidationErrors (p : ProjectInfo) : List String :=
  (if p.title = "" then ["Project title cannot be empty"] else []) ++
  (if p.tempo ≤ 0 then ["Project tempo must be greater than 0"] else []) ++
  (if p.timeSignature = "" then ["Time signature cannot be empty"] else [])

/-- Models `ValidationResult::merge(other)` as a function from the two
operands to the post-call state of the receiver: errors and warnings of
`other` are appended, and validity is cleared when `other` was invalid. -/
def ValidationResult.merge (r other : ValidationResult) : ValidationResult :=
  { r with
    errors := r.errors ++ other.errors,
    warnings := r.warnings ++ other.warnings,
    isValid := if other.isValid = false then false else r.isValid }

/-- Abstraction of the `std::filesystem` / `std::ifstream` queries the
engine performs, as an explicit record so the operations stay pure. -/
structure FileSystem where
  pathExists : FsPath → Bool
  isRegularFile : FsPath → Bool
  readableGood : FsPath → Bool

/-- Models `DataAccessEngineImpl::loadClips` (the validation pipeline and
its GREEN-phase empty payload, `data_access_engine_extracted.cpp`). -/
def loadClips (fs : FileSystem) (path : FsPath) (trackId : String) : Result (List ClipInfo) :=
  if FsPath.pathEmpty path = true then
    Result.makeError "Path cannot be empty" (-1)
  else if trackId = "" then
    Result.makeError "Track ID cannot be empty" (-1)
  else if fs.pathExists path = false then
    Result.makeError ("File does not exist: " ++ path.render) (-1)
  else if fs.isRegularFile path = false then
    Result.makeError ("Path is not a regular file: " ++ path.render) (-1)
  else if 256 < trackId.length then
    Result.makeError ("Track ID too long: " ++ toString trackId.length ++ " characters") (-1)
  else
    Result.makeSuccess []

/-- Models the validation pipeline of `DataAccessEngineImpl::saveProject`
up to the point where the engine starts touching the filesystem:
`some msg` is the error Result the C++ returns, `none` means every check
passed and the engine proceeds to create directories and write the file.
`tracks` and `clips` are unused by the source (GREEN phase) and kept for
signature fidelity.  `cwd` is the canonical working directory used to
resolve `weakly_canonical`. -/
def saveProjectValidate (project : ProjectInfo) (tracks : List TrackInfo)
    (clips : List ClipInfo) (path : FsPath) (cwd : List String) : Option String :=
  if FsPath.pathEmpty path = true then
    some "Output path cannot be empty"
  else if project.title = "" then
    some "Project title cannot be empty"
  else if project.tempo ≤ 0 ∨ 999 < project.tempo then
    some ("Invalid tempo: " ++ cppToStringDouble project.tempo)
  else
    let canonicalPath := weaklyCanonical cwd path
    let parentPath := FsPath.parent canonicalPath
    if strContains parentPath.render ".." = true then
      some "Invalid path: contains parent directory references"
    else
      let extension := FsPath.extension path
      if extension ≠ ".dawproject" ∧ extension ≠ ".xml" then
        some ("Invalid file extension: " ++ extension ++ ". Expected .dawproject or .xml")
      else
        none

/-- The file content `DataAccessEngineImpl::saveProject` streams to the
output file once validation has passed (the `file <<` lines). -/
def saveProjectContent (project : ProjectInfo) : String :=
  "<?xml version=\"1.0\" encoding=\"UTF-8\"?>\n" ++
  "<Project title=\"" ++ project.title ++ "\" tempo=\"" ++ streamDouble project.tempo ++ "\">\n" ++
  "  <!-- Generated by DAWProject Data Access Engine -->\n" ++
  "</Project>\n"

/-- State of `ProjectReaderImpl`: the constructor-held path, open flag,
the loaded project metadata, track and clip lists, and the two cursors. -/
structure ProjectReaderState where
  filePath : FsPath
  isOpen : Bool
  projectInfo : ProjectInfo
  tracks : List TrackInfo
  clips : List ClipInfo
  currentTrackIndex : Nat
  currentClipIndex : Nat
deriving DecidableEq, Inhabited

/-- The project metadata `ProjectReaderImpl::open` loads (GREEN phase
sample data; the `time_point` fields are modelled as tick `0`). -/
def sampleOpenInfo : ProjectInfo :=
  ⟨"Sample Project", "Test Artist", "", "", 120, "4/4", "", 0, 0⟩

/-- The single sample track `ProjectReaderImpl::open` loads. -/
def sampleTrack : TrackInfo :=
  ⟨"track_1", "Audio Track 1", TrackType.Audio, "", 1, 0, false, false, 0, none, none⟩

/-- Models `ProjectReaderImpl::open`: validates existence, regular-file
status and readability (returning `false` and staying closed on any
failure), then loads the sample metadata, the one sample track and an
empty clip list. -/
def ProjectReaderState.openReader (fs : FileSystem) (s : ProjectReaderState) :
    Bool × ProjectReaderState :=
  if s.isOpen = true then (true, s)
  else if fs.pathExists s.filePath = false then (false, s)
  else if fs.isRegularFile s.filePath = false then (false, s)
  else if fs.readableGood s.filePath = false then (false, s)
  else
    (true, { s with
      isOpen := true,
      projectInfo := sampleOpenInfo,
      tracks := [sampleTrack],
      clips := [] })

/-- Models `ProjectReaderImpl::close`: clears the open flag and resets
both cursors; the loaded lists are retained. -/
def ProjectReaderState.close (s : ProjectReaderState) : ProjectReaderState :=
  { s with isOpen := false, currentTrackIndex := 0, currentClipIndex := 0 }

/-- Models `ProjectReaderImpl::readProjectInfo` (no state is mutated). -/
def ProjectReaderState.readProjectInfo (s : ProjectReaderState) : Result ProjectInfo :=
  if s.isOpen = false then
    Result.makeError "Reader not open" (-1)
  else if s.projectInfo.title = "" then
    Result.makeError "Project title is empty" (-1)
  else if s.projectInfo.tempo ≤ 0 then
    Result.makeError ("Invalid project tempo: " ++ cppToStringDouble s.projectInfo.tempo) (-1)
  else
    Result.makeSuccess s.projectInfo

/-- The per-track validation `ProjectReaderImpl::readNextTrack` performs
after `tracks_[currentTrackIndex_++]` has already advanced the cursor. -/
def readTrackResult (track : TrackInfo) : Result TrackInfo :=
  if track.id = "" then Result.makeError "Track has empty ID" (-1)
  else Result.makeSuccess track

/-- Models `ProjectReaderImpl::readNextTrack`.  The source first rejects a
closed reader, then an exhausted cursor ("No more tracks available", with
two further unreachable bounds checks), and otherwise reads
`tracks_[currentTrackIndex_++]` — the cursor advances before the track's
id is validated, so both the success and the empty-id error leave the
cursor incremented. -/
def ProjectReaderState.readNextTrack (s : ProjectReaderState) :
    Result TrackInfo × ProjectReaderState :=
  if s.isOpen = false then
    (Result.makeError "Reader not open" (-1), s)
  else if s.currentTrackIndex ≥ s.tracks.length then
    (Result.makeError "No more tracks available" (-1), s)
  else if s.tracks = [] then
    (Result.makeError "No tracks loaded" (-1), s)
  else if s.currentTrackIndex ≥ s.tracks.length then
    (Result.makeError "Track index out of bounds" (-1), s)
  else
    (readTrackResult (s.tracks.getD s.currentTrackIndex default),
     { s with currentTrackIndex := s.currentTrackIndex + 1 })

/-- The per-clip validation `ProjectReaderImpl::readNextClip` performs
after the cursor has advanced. -/
def readClipResult (clip : ClipInfo) : Result ClipInfo :=
  if clip.id = "" then Result.makeError "Clip has empty ID" (-1)
  else if clip.startTime < 0 then
    Result.makeError ("Clip has invalid start time: " ++ cppToStringDouble clip.startTime) (-1)
  else Result.makeSuccess clip

/-- Models `ProjectReaderImpl::readNextClip`, structured like
`readNextTrack`. -/
def ProjectReaderState.readNextClip (s : ProjectReaderState) :
    Result ClipInfo × ProjectReaderState :=
  if s.isOpen = false then
    (Result.makeError "Reader not open" (-1), s)
  else if s.currentClipIndex ≥ s.clips.length then
    (Result.makeError "No more clips available" (-1), s)
  else if s.clips = [] then
    (Result.makeError "No clips loaded" (-1), s)
  else if s.currentClipIndex ≥ s.clips.length then
    (Result.makeError "Clip index out of bounds" (-1), s)
  else
    (readClipResult (s.clips.getD s.currentClipIndex default),
     { s with currentClipIndex := s.currentClipIndex + 1 })

/-- Models `ProjectReaderImpl::hasMoreTracks`: a pure cursor-vs-length
comparison, independent of the open flag. -/
def ProjectReaderState.hasMoreTracks (s : ProjectReaderState) : Bool :=
  decide (s.currentTrackIndex < s.tracks.length)

/-- Models `ProjectReaderImpl::hasMoreClips`. -/
def ProjectReaderState.hasMoreClips (s : ProjectReaderState) : Bool :=
  decide (s.currentClipIndex < s.clips.length)

/-- A reader immediately after a successful `open()` whose loaded track
list is `ts`: open flag set, sample metadata loaded, clip list empty,
both cursors at zero.  The GREEN-phase `open()` always loads the single
sample track; the claims quantify over the loaded list, so the list is a
parameter here. -/
def openedReader (ts : List TrackInfo) : ProjectReaderState :=
  ⟨⟨false, ["sample.dawproject"]⟩, true, sampleOpenInfo, ts, [], 0, 0⟩

/-- Iterates the state component of `readNextTrack` `n` times. -/
def readTrackSteps (s : ProjectReaderState) : Nat → ProjectReaderState
  | 0 => s
  | n + 1 => (ProjectReaderState.readNextTrack (readTrackSteps s n)).2

/-- State of `ProjectWriterImpl`: output path, open flag and the
in-memory XML buffer. -/
structure ProjectWriterState where
  filePath : FsPath
  isOpen : Bool
  xmlBuffer : String
deriving DecidableEq, Inhabited

/-- The buffer contents `ProjectWriterImpl::open` installs. -/
def openWriterBuffer : String :=
  "<?xml version=\"1.0\" encoding=\"UTF-8\"?>\n<Project>\n"

/-- The serialized fragment `ProjectWriterImpl::writeProjectInfo` appends
for a project record: title and artist are concatenated verbatim. -/
def projectInfoXml (p : ProjectInfo) : String :=
  "  <ProjectInfo title=\"" ++ p.title ++ "\" tempo=\"" ++
  cppToStringDouble p.tempo ++ "\" artist=\"" ++ p.artist ++ "\"/>\n"

/-- The serialized fragment `ProjectWriterImpl::writeTrack` appends for a
track record: id and name are concatenated verbatim. -/
def trackXml (t : TrackInfo) : String :=
  "  <Track id=\"" ++ t.id ++ "\" name=\"" ++ t.name ++ "\"/>\n"

/-- Models `ProjectWriterImpl::writeProjectInfo`: closed-writer guard,
field validation, then the 10 MiB buffer-ceiling guard before the
fragment is appended; the returned byte count is the fragment length. -/
def ProjectWriterState.writeProjectInfo (s : ProjectWriterState) (project : ProjectInfo) :
    Result Nat × ProjectWriterState :=
  if s.isOpen = false then
    (Result.makeError "Writer not open" (-1), s)
  else if project.title = "" then
    (Result.makeError "Project title cannot be empty" (-1), s)
  else if project.tempo ≤ 0 ∨ 999 < project.tempo then
    (Result.makeError ("Invalid tempo: " ++ cppToStringDouble project.tempo) (-1), s)
  else if 256 < project.artist.length then
    (Result.makeError ("Artist name too long: " ++ toString project.artist.length ++ " characters") (-1), s)
  else if 10 * 1024 * 1024 < s.xmlBuffer.length + (projectInfoXml project).length then
    (Result.makeError "XML buffer size limit exceeded" (-1), s)
  else
    (Result.makeSuccess (projectInfoXml project).length,
     { s with xmlBuffer := s.xmlBuffer ++ projectInfoXml project })

/-- Models `ProjectWriterImpl::writeTrack`, with the same guard order as
the source: closed-writer, empty id, empty name, then the 10 MiB
buffer-ceiling check (`xmlBuffer_.size() + trackXml.size() > 10*1024*1024`)
before the append. -/
def ProjectWriterState.writeTrack (s : ProjectWriterState) (track : TrackInfo) :
    Result Nat × ProjectWriterState :=
  if s.isOpen = false then
    (Result.makeError "Writer not open" (-1), s)
  else if track.id = "" then
    (Result.makeError "Track ID cannot be empty" (-1), s)
  else if track.name = "" then
    (Result.makeError "Track name cannot be empty" (-1), s)
  else if 10 * 1024 * 1024 < s.xmlBuffer.length + (trackXml track).length then
    (Result.makeError "XML buffer size limit exceeded" (-1), s)
  else
    (Result.makeSuccess (trackXml track).length,
     { s with xmlBuffer := s.xmlBuffer ++ trackXml track })

/-! Concrete inputs used by the witness and counterexample theorems. -/

/-- The traversal-attack path `"../evil.xml"` from the specification's
end-to-end scenario. -/
def evilPath : FsPath := ⟨false, ["..", "evil.xml"]⟩

/-- A canonical working directory (`/root/workspace`) containing no `..`
in any directory name. -/
def demoCwd : List String := ["root", "workspace"]

/-- A project whose non-path fields all pass `saveProject` validation. -/
def demoProject : ProjectInfo := ⟨"T", "", "", "", 120, "4/4", "", 0, 0⟩

/-- A valid project whose title contains a raw `<`. -/
def demoUnescapedProject : ProjectInfo := ⟨"a<b", "", "", "", 120, "4/4", "", 0, 0⟩

/-- A track whose id contains a raw `<`. -/
def demoAngleTrack : TrackInfo :=
  ⟨"t<1", "Lead", TrackType.Audio, "", 1, 0, false, false, 0, none, none⟩

/-- A writer in the Open state, right after `open()`. -/
def demoOpenWriter : ProjectWriterState := ⟨⟨false, ["out.xml"]⟩, true, openWriterBuffer⟩

/-- An ordinary relative output path with an allowed extension. -/
def goodPath : FsPath := ⟨false, ["out.xml"]⟩

/-- An open writer whose buffer already sits exactly at the 10 MiB
ceiling, so that any further fragment would cross it. -/
def bigWriter : ProjectWriterState :=
  ⟨⟨false, ["out.xml"]⟩, true, String.mk (List.replicate (10 * 1024 * 1024) 'a')⟩

/-- A small valid track. -/
def demoTrack : TrackInfo :=
  ⟨"t1", "Lead", TrackType.Audio, "", 1, 0, false, false, 0, none, none⟩

/-- Two valid tracks with distinct ids. -/
def demoTracks : List TrackInfo :=
  [⟨"t1", "Drums", TrackType.Audio, "", 1, 0, false, false, 0, none, none⟩,
   ⟨"t2", "Bass", TrackType.Instrument, "", 1, 0, false, false, 1, none, none⟩]

/-- A filesystem on which every path exists, is a regular file and is
readable. -/
def demoFS : FileSystem := ⟨fun _ => true, fun _ => true, fun _ => true⟩

/-- A plain project-file path. -/
def demoPath : FsPath := ⟨false, ["project.dawproject"]⟩

/-- A valid project with an empty time signature. -/
def demoProjectNoTS : ProjectInfo := ⟨"T", "", "", "", 120, "", "", 0, 0⟩

/-! Helper lemmas about the reader state machine. -/

/-- An in-bounds `readNextTrack` reads the track under the cursor and
advances the cursor, with the per-track validation applied afterwards. -/
theorem readNextTrack_inbounds (s : ProjectReaderState) (ho : s.isOpen = true)
    (hi : s.currentTrackIndex < s.tracks.length) :
    s.readNextTrack =
      (readTrackResult (s.tracks.getD s.currentTrackIndex default),
       { s with currentTrackIndex := s.currentTrackIndex + 1 }) := by
  have h1 : ¬ s.isOpen = false := by simp [ho]
  have h2 : ¬ s.currentTrackIndex ≥ s.tracks.length := by omega
  have h3 : ¬ s.tracks = [] := by
    intro h
    rw [h] at hi
    simp at hi
  unfold ProjectReaderState.readNextTrack
  rw [if_neg h1, if_neg h2, if_neg h3, if_neg h2]

/-- An exhausted cursor makes `readNextTrack` fail and leaves the state
unchanged. -/
theorem readNextTrack_atEnd (s : ProjectReaderState) (ho : s.isOpen = true)
    (hi : s.tracks.length ≤ s.currentTrackIndex) :
    s.readNextTrack = (Result.makeError "No more tracks available" (-1), s) := by
  have h1 : ¬ s.isOpen = false := by simp [ho]
  unfold ProjectReaderState.readNextTrack
  rw [if_neg h1, if_pos hi]

/-- After `i ≤ N` reads from a freshly opened reader the only change of
state is the track cursor, which sits at `i`. -/
theorem readTrackSteps_idx (ts : List TrackInfo) :
    ∀ i, i ≤ ts.length →
      readTrackSteps (openedReader ts) i =
        { openedReader ts with currentTrackIndex := i } := by
  intro i
  induction i with
  | zero => intro _; rfl
  | succ n ih =>
    intro h
    have hn : n < ts.length := Nat.lt_of_succ_le h
    rw [readTrackSteps, ih (Nat.le_of_lt hn),
        readNextTrack_inbounds _ rfl (by simpa [openedReader] using hn)]

/-! Claim theorems. -/

/-- Claim C1 (code bug evaluation): `saveProject` with the output path
`"../evil.xml"` and a project whose other fields pass validation is NOT
rejected: `weakly_canonical` resolves the `..` segment away (the target
becomes `/root/evil.xml`, outside the working directory), so the
substring search for `".."` over the canonical parent never fires, the
`.xml` extension is allowed, and the engine proceeds to write the file —
contradicting both the claim and the code's own "prevent path traversal
attacks" documentation. -/
theorem saveProject_traversal_check_ineffective :
    saveProjectValidate demoProject [] [] evilPath demoCwd = none ∧
    (weaklyCanonical demoCwd evilPath).render = "/root/evil.xml" ∧
    strContains (FsPath.parent (weaklyCanonical demoCwd evilPath)).render ".." = false := by
  decide

/-- Claim C2 (code bug evaluation): serialized free text is not escaped.
With the valid project title `a<b`, `writeProjectInfo` succeeds and the
buffer afterwards contains the raw sequence `title="a<b"` — an unescaped
`<` inside the attribute syntax; likewise the `writeTrack` fragment for
an id containing `<`, and the content `saveProject` writes (whose
validation also passes for an ordinary output path). -/
theorem writer_serialization_unescaped :
    (demoOpenWriter.writeProjectInfo demoUnescapedProject).1.success = true ∧
    strContains (demoOpenWriter.writeProjectInfo demoUnescapedProject).2.xmlBuffer "title=\"a<b\"" = true ∧
    strContains (trackXml demoAngleTrack) "id=\"t<1\"" = true ∧
    saveProjectValidate demoUnescapedProject [] [] goodPath demoCwd = none ∧
    strContains (saveProjectContent demoUnescapedProject) "title=\"a<b\"" = true := by
  decide

/-- Claim C3: on an open writer, a `writeTrack` call whose valid fragment
would push the buffer past the 10 MiB ceiling returns the buffer-limit
error Result and leaves the writer state — in particular the buffer —
exactly as it was before the call. -/
theorem writeTrack_buffer_ceiling (s : ProjectWriterState) (track : TrackInfo)
    (ho : s.isOpen = true) (hid : track.id ≠ "") (hname : track.name ≠ "")
    (hsz : 10 * 1024 * 1024 < s.xmlBuffer.length + (trackXml track).length) :
    s.writeTrack track = (Result.makeError "XML buffer size limit exceeded" (-1), s) := by
  have h1 : ¬ s.isOpen = false := by simp [ho]
  unfold ProjectWriterState.writeTrack
  rw [if_neg h1, if_neg hid, if_neg hname, if_pos hsz]

/-- Witness for C3, at a writer whose buffer sits exactly at the 10 MiB
ceiling. -/
theorem writeTrack_buffer_ceiling_witness :
    bigWriter.writeTrack demoTrack =
      (Result.makeError "XML buffer size limit exceeded" (-1), bigWriter) :=
  writeTrack_buffer_ceiling bigWriter demoTrack rfl (by decide) (by decide)
    (by
      have h1 : bigWriter.xmlBuffer.length = 10 * 1024 * 1024 := by
        rw [show bigWriter.xmlBuffer.length = (List.replicate (10 * 1024 * 1024) 'a').length from rfl,
            List.length_replicate]
      have h2 : 0 < (trackXml demoTrack).length := by decide
      omega)

/-- Claim C4: from a freshly opened reader over a track list `ts` whose
ids are all non-empty, the `i`-th `readNextTrack` call (for `i < N`)
succeeds with the `i`-th track and advances the cursor to `i + 1`; after
`N` calls `hasMoreTracks` is `false` and the `(N+1)`-th call returns the
"No more tracks available" error Result. -/
theorem reader_sequential_track_iteration (ts : List TrackInfo)
    (h : ∀ t ∈ ts, t.id ≠ "") :
    (∀ i, i < ts.length →
        ProjectReaderState.readNextTrack (readTrackSteps (openedReader ts) i) =
          (Result.makeSuccess (ts.getD i default),
           { openedReader ts with currentTrackIndex := i + 1 })) ∧
    ProjectReaderState.hasMoreTracks (readTrackSteps (openedReader ts) ts.length) = false ∧
    ProjectReaderState.readNextTrack (readTrackSteps (openedReader ts) ts.length) =
      (Result.makeError "No more tracks available" (-1),
       readTrackSteps (openedReader ts) ts.length) := by
  refine ⟨?_, ?_, ?_⟩
  · intro i hi
    rw [readTrackSteps_idx ts i (Nat.le_of_lt hi),
        readNextTrack_inbounds _ rfl (by simpa [openedReader] using hi)]
    have hm : ts.getD i default ∈ ts := by
      rw [List.getD_eq_getElem ts default (by simpa [openedReader] using hi)]
      exact List.getElem_mem _
    have hne : (ts.getD i default).id ≠ "" := h _ hm
    dsimp only [openedReader]
    unfold readTrackResult
    rw [if_neg hne]
  · rw [readTrackSteps_idx ts ts.length le_rfl]
    simp [ProjectReaderState.hasMoreTracks, openedReader]
  · rw [readTrackSteps_idx ts ts.length le_rfl]
    exact readNextTrack_atEnd _ rfl (by simp [openedReader])

/-- Witness for C4 on a two-track list. -/
theorem reader_sequential_track_iteration_witness :
    (∀ t ∈ demoTracks, t.id ≠ "") ∧
    ProjectReaderState.hasMoreTracks (readTrackSteps (openedReader demoTracks) 2) = false :=
  ⟨by decide, (reader_sequential_track_iteration demoTracks (by decide)).2.1⟩

/-- Claim C5: `loadClips` returns an error Result whenever `trackId` is
empty, and whenever it is longer than 256 characters; it succeeds exactly
when the path preconditions hold and `trackId` is non-empty and at most
256 characters. -/
theorem loadClips_trackId_validation (fs : FileSystem) (path : FsPath) (trackId : String) :
    (trackId = "" → (loadClips fs path trackId).success = false) ∧
    (256 < trackId.length → (loadClips fs path trackId).success = false) ∧
    ((loadClips fs path trackId).success = true ↔
      (FsPath.pathEmpty path = false ∧ fs.pathExists path = true ∧
       fs.isRegularFile path = true ∧ trackId ≠ "" ∧ trackId.length ≤ 256)) := by
  unfold loadClips
  split_ifs with h1 h2 h3 h4 h5 <;>
    simp_all [Result.makeError, Result.makeSuccess]

/-- Witness for C5: the empty trackId is rejected even on a filesystem
where every path precondition holds. -/
theorem loadClips_trackId_validation_witness :
    (loadClips demoFS demoPath "").success = false :=
  (loadClips_trackId_validation demoFS demoPath "").1 rfl

/-- Claim C6: `ProjectInfo::isValid` returns true exactly when the title
is non-empty and the tempo is positive. -/
theorem projectInfo_isValid_iff (p : ProjectInfo) :
    p.isValid = true ↔ (p.title ≠ "" ∧ 0 < p.tempo) := by
  simp [ProjectInfo.isValid]

/-- Claim C7: after `a.merge(b)` the error list is `a`'s errors followed
by `b`'s, the warning list likewise, and the validity flag is the
conjunction of the operands' flags. -/
theorem validationResult_merge_spec (a b : ValidationResult) :
    (a.merge b).errors = a.errors ++ b.errors ∧
    (a.merge b).warnings = a.warnings ++ b.warnings ∧
    (a.merge b).isValid = (a.isValid && b.isValid) := by
  refine ⟨rfl, rfl, ?_⟩
  cases hb : b.isValid <;> simp [ValidationResult.merge, hb]

/-- Claim C8: `Result<T>::makeSuccess(v)` carries `success = true`,
`value = v`, empty message and code 0; `Result<T>::makeError(msg, code)`
carries `success = false`, the default-constructed value, `msg` and
`code`. -/
theorem result_make_success_error_spec (T : Type) [Inhabited T] [DecidableEq T]
    (v : T) (msg : String) (code : Int) :
    (Result.makeSuccess v).success = true ∧ (Result.makeSuccess v).value = v ∧
    (Result.makeSuccess v).errorMessage = "" ∧ (Result.makeSuccess v).errorCode = 0 ∧
    (Result.makeError msg code : Result T).success = false ∧
    (Result.makeError msg code : Result T).value = default ∧
    (Result.makeError msg code : Result T).errorMessage = msg ∧
    (Result.makeError msg code : Result T).errorCode = code :=
  ⟨rfl, rfl, rfl, rfl, rfl, rfl, rfl, rfl⟩

/-- Claim C9: closing an open reader with a non-empty loaded track list
retains both loaded lists and resets both cursors, so `hasMoreTracks`
still answers `true` (and `hasMoreClips` still reports against the
retained clip list) while every read operation now returns the
"Reader not open" error Result. -/
theorem reader_closed_retains_lists (s : ProjectReaderState)
    (ho : s.isOpen = true) (h : 0 < s.tracks.length) :
    s.close.tracks = s.tracks ∧ s.close.clips = s.clips ∧
    s.close.currentTrackIndex = 0 ∧ s.close.currentClipIndex = 0 ∧
    s.close.hasMoreTracks = true ∧
    s.close.hasMoreClips = decide (0 < s.clips.length) ∧
    s.close.readNextTrack = (Result.makeError "Reader not open" (-1), s.close) ∧
    s.close.readNextClip = (Result.makeError "Reader not open" (-1), s.close) ∧
    s.close.readProjectInfo = Result.makeError "Reader not open" (-1) := by
  refine ⟨rfl, rfl, rfl, rfl, ?_, rfl, ?_, ?_, ?_⟩
  · simp only [ProjectReaderState.close, ProjectReaderState.hasMoreTracks]
    simpa using h
  · simp [ProjectReaderState.readNextTrack, ProjectReaderState.close]
  · simp [ProjectReaderState.readNextClip, ProjectReaderState.close]
  · simp [ProjectReaderState.readProjectInfo, ProjectReaderState.close]

/-- Witness for C9 at a freshly opened single-track reader. -/
theorem reader_closed_retains_lists_witness :
    (openedReader [sampleTrack]).isOpen = true ∧
    (openedReader [sampleTrack]).close.hasMoreTracks = true :=
  ⟨rfl, (reader_closed_retains_lists (openedReader [sampleTrack]) rfl (by decide)).2.2.2.2.1⟩

/-- Claim C10: a project with non-empty title, positive tempo and empty
time signature is reported valid by `isValid` while
`getValidationErrors` still returns a non-empty list (the time-signature
message), so the two notions of validity disagree. -/
theorem isValid_vs_validationErrors_divergence (p : ProjectInfo)
    (h1 : p.title ≠ "") (h2 : 0 < p.tempo) (h3 : p.timeSignature = "") :
    p.isValid = true ∧
    p.getValidationErrors = ["Time signature cannot be empty"] ∧
    p.getValidationErrors ≠ [] := by
  have h2' : ¬ p.tempo ≤ 0 := not_le.mpr h2
  refine ⟨?_, ?_, ?_⟩
  · simp [ProjectInfo.isValid, h1, h2]
  · simp [ProjectInfo.getValidationErrors, h1, h2', h3]
  · simp [ProjectInfo.getValidationErrors, h1, h2', h3]

/-- Witness for C10. -/
theorem isValid_vs_validationErrors_divergence_witness :
    demoProjectNoTS.title ≠ "" ∧ demoProjectNoTS.isValid = true :=
  ⟨by decide, (isValid_vs_validationErrors_divergence demoProjectNoTS (by decide) (by decide) rfl).1⟩
